import Mathlib

/-!
# goexpert-otel: the Gateway (service-a) and the Resolver (service-b)

A shallow embedding of `service-a/main.go` and `service-b/main.go`.

* Go strings are Lean `String`s (sequences of Unicode scalar values); the
  library routines the handlers call on them (`strings.TrimSpace`,
  `strings.ReplaceAll`, `strings.Split`, `regexp.MatchString`) are written out
  over `List Char`.
* Everything a handler obtains from outside the process (JSON decoding of a
  body, an outbound HTTP call, an environment variable) is a field of an
  environment record passed to the handler.
* A handler returns what it has written to its `http.ResponseWriter` together
  with the log of the effects it performed (span starts, span ends, outbound
  calls), in program order.
-/

namespace GoexpertOtel

/-! ## Library routines on strings -/

/-- Go `unicode.IsSpace`: the Latin-1 spaces `\t \n \v \f \r`, space, U+0085,
U+00A0, and the other code points of the `White_Space` table. -/
def isSpace (c : Char) : Bool :=
  let n := c.toNat
  (9 ≤ n && n ≤ 13) || n == 0x20 || n == 0x85 || n == 0xA0 || n == 0x1680 ||
    (0x2000 ≤ n && n ≤ 0x200A) || n == 0x2028 || n == 0x2029 || n == 0x202F ||
    n == 0x205F || n == 0x3000

/-- Drop the trailing characters of a list that satisfy `p`. -/
def dropRightWhile (p : Char → Bool) (cs : List Char) : List Char :=
  ((cs.reverse).dropWhile p).reverse

/-- Go `strings.TrimSpace` on the characters of a string: leading and trailing
white space removed. -/
def trimSpaceChars (cs : List Char) : List Char :=
  dropRightWhile isSpace (cs.dropWhile isSpace)

/-- Go `strings.TrimSpace`. -/
def TrimSpace (s : String) : String :=
  ⟨trimSpaceChars s.data⟩

/-- The scan of `strings.ReplaceAll s old new` for a non-empty `old`: `skip`
counts the characters of a match of `old` still to be passed over. -/
def replaceAllChars (old new : List Char) : List Char → Nat → List Char
  | [], _ => []
  | _ :: cs, skip + 1 => replaceAllChars old new cs skip
  | c :: cs, 0 =>
    if old.isPrefixOf (c :: cs) then new ++ replaceAllChars old new cs (old.length - 1)
    else c :: replaceAllChars old new cs 0

/-- Go `strings.ReplaceAll` (for a non-empty `old`): every non-overlapping
occurrence of `old`, from the left, replaced by `new`. -/
def ReplaceAll (s old new : String) : String :=
  ⟨replaceAllChars old.data new.data s.data 0⟩

/-- The scan of `strings.Split s sep` for a one-character `sep`: `cur` is the
part being read, in reverse. -/
def splitChars (sep : Char) : List Char → List Char → List (List Char)
  | [], cur => [cur.reverse]
  | c :: cs, cur =>
    if c = sep then cur.reverse :: splitChars sep cs [] else splitChars sep cs (c :: cur)

/-- Go `strings.Split s sep` for a one-character separator: the parts of `s`
between the occurrences of `sep`, one more than there are occurrences. -/
def Split (s : String) (sep : Char) : List String :=
  (splitChars sep s.data []).map String.mk

/-! ## The regular expression of `isValidCEP` -/

/-- The syntax of the regular expressions `isValidCEP` needs. -/
inductive Regex where
  /-- `^`, without the multi-line flag: the beginning of the text. -/
  | beginText : Regex
  /-- `$`, without the multi-line flag: the end of the text. -/
  | endText : Regex
  /-- `\d`: one of the ASCII digits `0` to `9`. -/
  | digit : Regex
  /-- A literal character. -/
  | lit : Char → Regex
  /-- The empty expression. -/
  | empty : Regex
  /-- `r?`. -/
  | opt : Regex → Regex
  /-- `r s`. -/
  | seq : Regex → Regex → Regex
  deriving Repr

/-- The class `\d` of Go regular expressions: ASCII `0` to `9` only. -/
def isDigit (c : Char) : Bool :=
  48 ≤ c.toNat && c.toNat ≤ 57

/-- The counted repetition `r{n}`, unfolded into `n` copies of `r` as the Go
regexp compiler does. -/
def Regex.times (r : Regex) : Nat → Regex
  | 0 => Regex.empty
  | n + 1 => Regex.seq r (Regex.times r n)

/-- Backtracking matcher: `matchAt r pos inp k` tries to match `r` on the text
whose unread part is `inp`, `pos` characters having been read, and passes each
position where a match of `r` ends to the continuation `k`. -/
def Regex.matchAt : Regex → Nat → List Char → (Nat → List Char → Bool) → Bool
  | Regex.beginText, pos, inp, k => pos == 0 && k pos inp
  | Regex.endText, pos, inp, k => inp.isEmpty && k pos inp
  | Regex.digit, _, [], _ => false
  | Regex.digit, pos, c :: cs, k => isDigit c && k (pos + 1) cs
  | Regex.lit _, _, [], _ => false
  | Regex.lit a, pos, c :: cs, k => (c == a) && k (pos + 1) cs
  | Regex.empty, pos, inp, k => k pos inp
  | Regex.opt r, pos, inp, k => Regex.matchAt r pos inp k || k pos inp
  | Regex.seq r s, pos, inp, k =>
    Regex.matchAt r pos inp (fun p i => Regex.matchAt s p i k)

/-- The unanchored search of `MatchString`, from the position `pos` on: is
there a match of `r` starting at `pos` or later. -/
def Regex.searchFrom (r : Regex) : Nat → List Char → Bool
  | pos, [] => Regex.matchAt r pos [] (fun _ _ => true)
  | pos, c :: cs =>
    Regex.matchAt r pos (c :: cs) (fun _ _ => true) || Regex.searchFrom r (pos + 1) cs

/-- Go `(*Regexp).MatchString`: does the string contain any match of `r`. -/
def Regex.MatchString (r : Regex) (s : String) : Bool :=
  Regex.searchFrom r 0 s.data

/-- The pattern of `isValidCEP`, `^\d{5}-?\d{3}$`. -/
def cepPattern : Regex :=
  Regex.seq Regex.beginText
    (Regex.seq (Regex.times Regex.digit 5)
      (Regex.seq (Regex.opt (Regex.lit '-'))
        (Regex.seq (Regex.times Regex.digit 3) Regex.endText)))

/-- `isValidCEP` of service-a. -/
def isValidCEP (cep : String) : Bool :=
  Regex.MatchString cepPattern cep


/-- The shape of a postal code in the words of the specification: exactly five
decimal digits, then at most one `-`, then exactly three decimal digits, and
nothing before or after. -/
def CEPShape (s : String) : Prop :=
  ∃ ds sep ts : List Char, s.data = ds ++ sep ++ ts ∧
    ds.length = 5 ∧ (∀ c ∈ ds, '0' ≤ c ∧ c ≤ '9') ∧
    (sep = [] ∨ sep = ['-']) ∧
    ts.length = 3 ∧ (∀ c ∈ ts, '0' ≤ c ∧ c ≤ '9')

/-- The same shape as a test on the characters. -/
def cepShapeChars : List Char → Bool
  | [a, b, c, d, e, f, g, h] =>
    isDigit a && isDigit b && isDigit c && isDigit d && isDigit e &&
      isDigit f && isDigit g && isDigit h
  | [a, b, c, d, e, m, f, g, h] =>
    isDigit a && isDigit b && isDigit c && isDigit d && isDigit e && (m == '-') &&
      isDigit f && isDigit g && isDigit h
  | _ => false

/-! ## net/http and the tracer, as the handlers see them -/

/-- The fields of `*http.Request` the handlers read. -/
structure Request where
  /-- `r.Method`. -/
  Method : String
  /-- `r.URL.Path`. -/
  Path : String
  /-- The bytes of `r.Body`. -/
  Body : String
  deriving DecidableEq, Repr

/-- A `*http.Response` returned by an outbound call: its status code and its
body, `none` when reading the body fails. -/
structure Response where
  /-- `resp.StatusCode`. -/
  StatusCode : Nat
  /-- What reading `resp.Body` to the end gives. -/
  Body : Option String
  deriving DecidableEq, Repr

/-- What a handler has written to its `http.ResponseWriter`: the code handed to
`WriteHeader` (200 when the handler only writes a body), the `Content-Type`
header and the body. -/
structure ResponseWriter where
  /-- The status code. -/
  status : Nat
  /-- The `Content-Type` header. -/
  contentType : String
  /-- The body. -/
  body : String
  deriving DecidableEq, Repr

abbrev http.MethodGet : String := "GET"
abbrev http.MethodPost : String := "POST"
abbrev http.StatusOK : Nat := 200
abbrev http.StatusBadRequest : Nat := 400
abbrev http.StatusNotFound : Nat := 404
abbrev http.StatusMethodNotAllowed : Nat := 405
abbrev http.StatusUnprocessableEntity : Nat := 422
abbrev http.StatusInternalServerError : Nat := 500

/-- Go `http.Error(w, error, code)`: a plain-text reply with the given code,
whose body is the error text followed by a newline. -/
def http.Error (error : String) (code : Nat) : ResponseWriter :=
  { status := code, contentType := "text/plain; charset=utf-8", body := error ++ "\n" }

/-- The effects a handler performs besides writing its reply. -/
inductive Event where
  /-- `tracer.Start(ctx, name)`. -/
  | spanStart (name : String) : Event
  /-- `End()` on the span started under `name`. -/
  | spanEnd (name : String) : Event
  /-- An outbound HTTP request sent to `url` (`client.Do`, `http.Get`). -/
  | httpCall (url : String) : Event
  deriving DecidableEq, Repr

/-! ## service-a: the Gateway -/

/-- `ZipCodeRequest` of service-a. -/
structure ZipCodeRequest where
  /-- The JSON field `cep`. -/
  CEP : String
  deriving DecidableEq, Repr

/-- What the Gateway obtains from outside the process; `V` is the type of the
values `map[string]interface{}` holds after decoding. -/
structure GatewayEnv (V : Type) where
  /-- `json.NewDecoder(r.Body).Decode(&req)` on the request body, `none` on error. -/
  decodeZipCodeRequest : String → Option ZipCodeRequest
  /-- `os.Getenv("SERVICE_B_URL")`. -/
  SERVICE_B_URL : String
  /-- Whether `http.NewRequestWithContext(ctx, "GET", url, nil)` returns no error. -/
  NewRequestOK : String → Bool
  /-- `client.Do` on the request for the URL, `none` on error. -/
  clientDo : String → Option Response
  /-- `json.Unmarshal(body, &errorResponse)` into a `map[string]string`, `none` on error. -/
  unmarshalStringMap : String → Option (List (String × String))
  /-- `json.NewDecoder(resp.Body).Decode(&result)` into a generic value, `none` on error. -/
  decodeValue : String → Option V
  /-- What `json.NewEncoder(w).Encode(result)` writes. -/
  encodeValue : V → String

/-- The reply of a Gateway handler and the log of its effects. -/
structure Outcome where
  /-- What was written to `w`. -/
  w : ResponseWriter
  /-- The effects, in program order. -/
  log : List Event
  deriving DecidableEq, Repr

/-- Indexing a Go `map[string]string`: the value stored under the key, the
empty string when the key is absent. -/
def mapIndex (m : List (String × String)) (key : String) : String :=
  (m.lookup key).getD ""

/-- The postal code `handleCEP` forwards:
`strings.ReplaceAll(strings.TrimSpace(req.CEP), "-", "")`. -/
def forwardedCEP (req : ZipCodeRequest) : String :=
  ReplaceAll (TrimSpace req.CEP) "-" ""

/-- The URL `handleCEP` requests: `BServiceURL+"/weather/"+cep`. -/
def resolverURL {V : Type} (env : GatewayEnv V) (req : ZipCodeRequest) : String :=
  env.SERVICE_B_URL ++ "/weather/" ++ forwardedCEP req

/-- The branch of `handleCEP` for a Resolver reply whose status is not 200. -/
def relayError {V : Type} (env : GatewayEnv V) (resp : Response) : ResponseWriter :=
  match resp.Body with
  | none => http.Error "error reading response body" http.StatusInternalServerError
  | some body =>
    match env.unmarshalStringMap body with
    | some errorResponse =>
      if mapIndex errorResponse "message" != "" then
        http.Error (mapIndex errorResponse "message") resp.StatusCode
      else
        http.Error body resp.StatusCode
    | none => http.Error body resp.StatusCode

/-- The branch of `handleCEP` for a Resolver reply whose status is 200. -/
def relaySuccess {V : Type} (env : GatewayEnv V) (resp : Response) : ResponseWriter :=
  match resp.Body.bind env.decodeValue with
  | none => http.Error "error parsing response" http.StatusInternalServerError
  | some result =>
    { status := http.StatusOK, contentType := "application/json", body := env.encodeValue result }

/-- The body of `handleCEP` between `tracer.Start` and the deferred `span.End()`. -/
def handleCEPSpan {V : Type} (env : GatewayEnv V) (r : Request) : Outcome :=
  match env.decodeZipCodeRequest r.Body with
  | none => ⟨http.Error "invalid request body" http.StatusBadRequest, []⟩
  | some req =>
    if !isValidCEP (TrimSpace req.CEP) then
      ⟨http.Error "invalid zipcode" http.StatusUnprocessableEntity, []⟩
    else if !env.NewRequestOK (resolverURL env req) then
      ⟨http.Error "internal server error" http.StatusInternalServerError, []⟩
    else
      match env.clientDo (resolverURL env req) with
      | none =>
        ⟨http.Error "error calling service b" http.StatusInternalServerError,
          [Event.httpCall (resolverURL env req)]⟩
      | some resp =>
        if resp.StatusCode != http.StatusOK then
          ⟨relayError env resp, [Event.httpCall (resolverURL env req)]⟩
        else
          ⟨relaySuccess env resp, [Event.httpCall (resolverURL env req)]⟩

/-- `handleCEP` of service-a. -/
def handleCEP {V : Type} (env : GatewayEnv V) (r : Request) : Outcome :=
  if r.Method != http.MethodPost then
    ⟨http.Error "method not allowed" http.StatusMethodNotAllowed, []⟩
  else
    let out := handleCEPSpan env r
    ⟨out.w, [Event.spanStart "handle-cep-request"] ++ out.log ++
      [Event.spanEnd "handle-cep-request"]⟩

/-! ## service-b: the Resolver -/

/-- `CEPResponse` of service-b. -/
structure CEPResponse where
  /-- The JSON field `cep`. -/
  CEP : String
  /-- The JSON field `localidade`. -/
  Localidade : String
  /-- The JSON field `uf`. -/
  UF : String
  /-- The JSON field `erro`. -/
  Error : Bool
  deriving DecidableEq, Repr

/-- `WeatherResponse` of service-b; `TempC` is `Current.TempC`, a `float64`. -/
structure WeatherResponse where
  /-- The JSON field `current.temp_c`. -/
  TempC : Float

/-- `WeatherResult` of service-b. -/
structure WeatherResult where
  /-- The JSON field `city`. -/
  City : String
  /-- The JSON field `temp_C`. -/
  TempC : Float
  /-- The JSON field `temp_F`. -/
  TempF : Float
  /-- The JSON field `temp_K`. -/
  TempK : Float

/-- What the Resolver obtains from outside the process. -/
structure ResolverEnv where
  /-- `http.Get(url)`, `none` on error. -/
  httpGet : String → Option Response
  /-- `json.NewDecoder(resp.Body).Decode(&location)` on the body, `none` on error. -/
  decodeCEPResponse : String → Option CEPResponse
  /-- `os.Getenv("WEATHER_API_KEY")`. -/
  WEATHER_API_KEY : String
  /-- `url.QueryEscape`. -/
  QueryEscape : String → String
  /-- `json.Unmarshal(body, &weather)`, `none` on error. -/
  unmarshalWeatherResponse : String → Option WeatherResponse
  /-- What `json.NewEncoder(w).Encode(result)` writes, `none` when it fails
  (a value that is not a finite number) and writes nothing. -/
  encodeWeatherResult : WeatherResult → Option String

/-- The reply of the Resolver handler, the log of its effects, and the
`WeatherResult` it handed to the JSON encoder, if any. -/
structure WeatherOutcome where
  /-- What was written to `w`. -/
  w : ResponseWriter
  /-- The effects, in program order. -/
  log : List Event
  /-- The `WeatherResult` built and passed to `Encode`. -/
  result : Option WeatherResult

/-- The URL `getLocation` requests. -/
def locationURL (cep : String) : String :=
  "https://viacep.com.br/ws/" ++ cep ++ "/json/"

/-- The URL `getWeather` requests. -/
def weatherURL (env : ResolverEnv) (city : String) : String :=
  "https://api.weatherapi.com/v1/current.json?key=" ++ env.WEATHER_API_KEY ++ "&q=" ++
    env.QueryEscape city

/-- `getLocation` of service-b: the `CEPResponse` or the text of the error,
and the outbound call made. -/
def getLocation (env : ResolverEnv) (cep : String) : Except String CEPResponse × List Event :=
  (match env.httpGet (locationURL cep) with
    | none => Except.error "can not find zipcode"
    | some resp =>
      match resp.Body.bind env.decodeCEPResponse with
      | none => Except.error "can not find zipcode"
      | some location =>
        if location.Error then Except.error "can not find zipcode" else Except.ok location,
   [Event.httpCall (locationURL cep)])

/-- `getWeather` of service-b: the `WeatherResponse`, `none` for an error, and
the outbound call made. -/
def getWeather (env : ResolverEnv) (city : String) : Option WeatherResponse × List Event :=
  (match env.httpGet (weatherURL env city) with
    | none => none
    | some resp =>
      match resp.Body with
      | none => none
      | some body => env.unmarshalWeatherResponse body,
   [Event.httpCall (weatherURL env city)])

/-- The `WeatherResult` `handleWeather` builds from a locality and a reading. -/
def buildResult (location : CEPResponse) (weather : WeatherResponse) : WeatherResult :=
  let tempC := weather.TempC
  let tempF := tempC * 1.8 + 32
  let tempK := tempC + 273.15
  { City := location.Localidade, TempC := tempC, TempF := tempF, TempK := tempK }

/-- The body of `handleWeather` between `tracer.Start` and the deferred `span.End()`. -/
def handleWeatherSpan (env : ResolverEnv) (r : Request) : WeatherOutcome :=
  let parts := Split r.Path '/'
  if parts.length != 3 then
    ⟨http.Error "invalid request path" http.StatusBadRequest, [], none⟩
  else
    let cep := parts.getD 2 ""
    let location := getLocation env cep
    let locationLog := [Event.spanStart "get-location"] ++ location.2 ++
      [Event.spanEnd "get-location"]
    match location.1 with
    | Except.error err => ⟨http.Error err http.StatusNotFound, locationLog, none⟩
    | Except.ok location =>
      let weather := getWeather env location.Localidade
      let weatherLog := [Event.spanStart "get-weather"] ++ weather.2 ++
        [Event.spanEnd "get-weather"]
      match weather.1 with
      | none =>
        ⟨http.Error "error getting weather data" http.StatusInternalServerError,
          locationLog ++ weatherLog, none⟩
      | some weather =>
        let result := buildResult location weather
        ⟨{ status := http.StatusOK, contentType := "application/json",
           body := (env.encodeWeatherResult result).getD "" },
          locationLog ++ weatherLog, some result⟩

/-- `handleWeather` of service-b. -/
def handleWeather (env : ResolverEnv) (r : Request) : WeatherOutcome :=
  if r.Method != http.MethodGet then
    ⟨http.Error "method not allowed" http.StatusMethodNotAllowed, [], none⟩
  else
    let out := handleWeatherSpan env r
    ⟨out.w, [Event.spanStart "handle-weather-request"] ++ out.log ++
      [Event.spanEnd "handle-weather-request"], out.result⟩

/-! ## Counting spans in a log -/

/-- Is the event the start of a span. -/
def Event.isSpanStart : Event → Bool
  | Event.spanStart _ => true
  | _ => false

/-- Is the event the end of a span. -/
def Event.isSpanEnd : Event → Bool
  | Event.spanEnd _ => true
  | _ => false

/-- Every span of the log is ended exactly once: the log has as many span ends
as span starts, and under each name the number of ends is the number of starts
and at most one. -/
def SpansClosedOnce (log : List Event) : Prop :=
  log.countP Event.isSpanStart = log.countP Event.isSpanEnd ∧
    ∀ name : String,
      log.count (Event.spanEnd name) = log.count (Event.spanStart name) ∧
        log.count (Event.spanEnd name) ≤ 1

/-! ## Concrete environments -/

/-- A Gateway environment with constant answers: every request body decodes to
`decoded`, the Resolver call returns `reply`, and every error body unmarshals
to `m`. -/
def gatewayStub (decoded : Option ZipCodeRequest) (reply : Option Response)
    (m : Option (List (String × String))) : GatewayEnv Unit where
  decodeZipCodeRequest := fun _ => decoded
  SERVICE_B_URL := "http://service-b:8081"
  NewRequestOK := fun _ => true
  clientDo := fun _ => reply
  unmarshalStringMap := fun _ => m
  decodeValue := fun _ => none
  encodeValue := fun _ => ""

/-- A Resolver environment whose geocoder knows no postal code and whose
weather service is down. -/
def resolverStubNotFound : ResolverEnv where
  httpGet := fun _ => some ⟨200, some ""⟩
  decodeCEPResponse := fun _ => some ⟨"", "", "", true⟩
  WEATHER_API_KEY := "k"
  QueryEscape := fun c => c
  unmarshalWeatherResponse := fun _ => none
  encodeWeatherResult := fun _ => none

/-- A Resolver environment whose geocoder answers São Paulo for every postal
code and whose weather service reports 25 degrees Celsius. -/
def resolverStubSunny : ResolverEnv where
  httpGet := fun _ => some ⟨200, some ""⟩
  decodeCEPResponse := fun _ => some ⟨"01310-100", "São Paulo", "SP", false⟩
  WEATHER_API_KEY := "k"
  QueryEscape := fun c => c
  unmarshalWeatherResponse := fun _ => some ⟨25.0⟩
  encodeWeatherResult := fun _ => some "(encoded)\n"

/-- A Resolver environment whose geocoder answers São Paulo for every postal
code and whose weather service is down. -/
def resolverStubNoWeather : ResolverEnv where
  httpGet := fun u => if u = locationURL "01310100" then some ⟨200, some ""⟩ else none
  decodeCEPResponse := fun _ => some ⟨"01310-100", "São Paulo", "SP", false⟩
  WEATHER_API_KEY := "k"
  QueryEscape := fun c => c
  unmarshalWeatherResponse := fun _ => none
  encodeWeatherResult := fun _ => none


/-! ## The postal-code pattern -/

theorem isDigit_iff (c : Char) : isDigit c = true ↔ '0' ≤ c ∧ c ≤ '9' := by
  simp only [isDigit, Bool.and_eq_true, decide_eq_true_eq, Char.le_def, Char.toNat]
  rfl

theorem isDigit_ne_dash (c : Char) (h : isDigit c = true) : (c == '-') = false := by
  rcases eq_or_ne c '-' with rfl | hne
  · exact absurd h (by decide)
  · simpa using hne

theorem matchAt_cepPattern_pos (pos : Nat) (inp : List Char) (k : Nat → List Char → Bool) :
    Regex.matchAt cepPattern (pos + 1) inp k = false := by
  simp [cepPattern, Regex.matchAt]

theorem searchFrom_cepPattern_pos (inp : List Char) :
    ∀ pos : Nat, Regex.searchFrom cepPattern (pos + 1) inp = false := by
  induction inp with
  | nil => intro pos; simp [Regex.searchFrom, matchAt_cepPattern_pos]
  | cons c cs ih => intro pos; simp [Regex.searchFrom, matchAt_cepPattern_pos, ih]

theorem searchFrom_cepPattern_zero (inp : List Char) :
    Regex.searchFrom cepPattern 0 inp = Regex.matchAt cepPattern 0 inp (fun _ _ => true) := by
  cases inp with
  | nil => rfl
  | cons c cs => simp [Regex.searchFrom, searchFrom_cepPattern_pos]

theorem matchAt_cepPattern_zero (inp : List Char) :
    Regex.matchAt cepPattern 0 inp (fun _ _ => true) = cepShapeChars inp := by
  rcases inp with _ | ⟨a, _ | ⟨b, _ | ⟨c, _ | ⟨d, _ | ⟨e, _ | ⟨f, _ | ⟨g, _ | ⟨h, _ | ⟨i, _ | ⟨j, t⟩⟩⟩⟩⟩⟩⟩⟩⟩⟩ <;>
    simp [cepPattern, Regex.matchAt, Regex.times, cepShapeChars, Bool.and_assoc]

theorem isValidCEP_eq_cepShapeChars (s : String) : isValidCEP s = cepShapeChars s.data := by
  rw [isValidCEP, Regex.MatchString, searchFrom_cepPattern_zero, matchAt_cepPattern_zero]

theorem cepShapeChars_iff (cs : List Char) :
    cepShapeChars cs = true ↔
      ∃ ds sep ts : List Char, cs = ds ++ sep ++ ts ∧
        ds.length = 5 ∧ (∀ c ∈ ds, isDigit c = true) ∧
        (sep = [] ∨ sep = ['-']) ∧
        ts.length = 3 ∧ (∀ c ∈ ts, isDigit c = true) := by
  constructor
  · intro hyp
    rcases cs with _ | ⟨a, _ | ⟨b, _ | ⟨c, _ | ⟨d, _ | ⟨e, _ | ⟨f, _ | ⟨g, _ | ⟨h, _ | ⟨i, _ | ⟨j, t⟩⟩⟩⟩⟩⟩⟩⟩⟩⟩ <;>
      simp only [cepShapeChars, Bool.and_eq_true, beq_iff_eq, Bool.false_eq_true] at hyp
    · obtain ⟨⟨⟨⟨⟨⟨⟨ha, hb⟩, hc⟩, hd⟩, he⟩, hf⟩, hg⟩, hh⟩ := hyp
      refine ⟨[a, b, c, d, e], [], [f, g, h], by simp, by simp, ?_, by simp, by simp, ?_⟩ <;>
        simp [*]
    · obtain ⟨⟨⟨⟨⟨⟨⟨⟨ha, hb⟩, hc⟩, hd⟩, he⟩, hf⟩, hg⟩, hh⟩, hi⟩ := hyp
      subst hf
      refine ⟨[a, b, c, d, e], ['-'], [g, h, i], by simp, by simp, ?_, by simp, by simp, ?_⟩ <;>
        simp [*]
  · rintro ⟨ds, sep, ts, rfl, hds, hd, hsep, hts, ht⟩
    rcases ds with _ | ⟨a, _ | ⟨b, _ | ⟨c, _ | ⟨d, _ | ⟨e, _ | ⟨x, t⟩⟩⟩⟩⟩⟩ <;> simp at hds
    rcases ts with _ | ⟨f, _ | ⟨g, _ | ⟨h, _ | ⟨y, u⟩⟩⟩⟩ <;> simp at hts
    simp at hd ht
    rcases hsep with rfl | rfl <;> simp [cepShapeChars, hd, ht]

/-- C1. For every string `s`, `isValidCEP s` is true exactly when `s` as a whole
is five decimal digits, then at most one `-`, then three decimal digits, with
nothing before or after; for every other string it is false. -/
theorem isValidCEP_iff_CEPShape (s : String) :
    (isValidCEP s = true ↔ CEPShape s) ∧ (isValidCEP s = false ↔ ¬ CEPShape s) := by
  have key : isValidCEP s = true ↔ CEPShape s := by
    rw [isValidCEP_eq_cepShapeChars, cepShapeChars_iff]
    simp only [CEPShape, isDigit_iff]
  exact ⟨key, by rw [← key]; simp⟩

theorem isDigit_bne_dash (c : Char) (h : isDigit c = true) : (c != '-') = true := by
  simp [bne, isDigit_ne_dash c h]

theorem replaceAllChars_dash (cs : List Char) :
    replaceAllChars ['-'] [] cs 0 = cs.filter (fun c => c != '-') := by
  induction cs with
  | nil => rfl
  | cons c cs ih =>
    by_cases h : c = '-'
    · subst h; simp [replaceAllChars, List.isPrefixOf, ih]
    · simp [replaceAllChars, List.isPrefixOf, ih, h, Ne.symm h]

theorem ReplaceAll_dash_data (s : String) :
    (ReplaceAll s "-" "").data = s.data.filter (fun c => c != '-') := by
  show replaceAllChars ['-'] [] s.data 0 = _
  exact replaceAllChars_dash s.data

theorem filter_dash_of_shape (cs : List Char) (hcs : cepShapeChars cs = true) :
    cepShapeChars (cs.filter (fun c => c != '-')) = true ∧
      (cs.filter (fun c => c != '-')).length = 8 ∧
      (cs.filter (fun c => c != '-')).all isDigit = true := by
  rcases cs with _ | ⟨a, _ | ⟨b, _ | ⟨c, _ | ⟨d, _ | ⟨e, _ | ⟨f, _ | ⟨g, _ | ⟨h, _ | ⟨i, _ | ⟨j, t⟩⟩⟩⟩⟩⟩⟩⟩⟩⟩ <;>
    simp only [cepShapeChars, Bool.and_eq_true, beq_iff_eq, Bool.false_eq_true] at hcs
  · obtain ⟨⟨⟨⟨⟨⟨⟨ha, hb⟩, hc⟩, hd⟩, he⟩, hf⟩, hg⟩, hh⟩ := hcs
    simp [List.filter_cons, isDigit_bne_dash, cepShapeChars, *]
  · obtain ⟨⟨⟨⟨⟨⟨⟨⟨ha, hb⟩, hc⟩, hd⟩, he⟩, hf⟩, hg⟩, hh⟩, hi⟩ := hcs
    subst hf
    simp [List.filter_cons, isDigit_bne_dash, cepShapeChars, *]

/-! ## service-a: validation and forwarding -/

theorem handleCEP_of_post {V : Type} (env : GatewayEnv V) (r : Request)
    (hm : r.Method = http.MethodPost) :
    handleCEP env r = ⟨(handleCEPSpan env r).w, [Event.spanStart "handle-cep-request"] ++
      (handleCEPSpan env r).log ++ [Event.spanEnd "handle-cep-request"]⟩ := by
  simp [handleCEP, hm]

theorem handleCEPSpan_call {V : Type} (env : GatewayEnv V) (r : Request) (u : String)
    (hu : Event.httpCall u ∈ (handleCEPSpan env r).log) :
    ∃ req, env.decodeZipCodeRequest r.Body = some req ∧ isValidCEP (TrimSpace req.CEP) = true := by
  unfold handleCEPSpan at hu
  cases hd : env.decodeZipCodeRequest r.Body with
  | none => simp [hd] at hu
  | some req =>
    refine ⟨req, rfl, ?_⟩
    cases hv : isValidCEP (TrimSpace req.CEP) with
    | true => rfl
    | false => simp [hd, hv] at hu

/-- C2. A POST request whose body decodes to a postal code that does not pass
`isValidCEP` after trimming is answered 422 "invalid zipcode" and the handler
makes no outbound call; and whenever `handleCEP` does call the Resolver, the
request was a POST whose trimmed postal code passes `isValidCEP`. -/
theorem handleCEP_invalid_is_422_without_call {V : Type} (env : GatewayEnv V) (r : Request) :
    (∀ req : ZipCodeRequest, r.Method = http.MethodPost →
      env.decodeZipCodeRequest r.Body = some req →
      isValidCEP (TrimSpace req.CEP) = false →
        (handleCEP env r).w = http.Error "invalid zipcode" 422 ∧
        (handleCEP env r).log =
          [Event.spanStart "handle-cep-request", Event.spanEnd "handle-cep-request"]) ∧
    (∀ u : String, Event.httpCall u ∈ (handleCEP env r).log →
      r.Method = http.MethodPost ∧
      ∃ req, env.decodeZipCodeRequest r.Body = some req ∧
        isValidCEP (TrimSpace req.CEP) = true) := by
  constructor
  · intro req hm hd hv
    rw [handleCEP_of_post env r hm]
    simp [handleCEPSpan, hd, hv]
  · intro u hu
    by_cases hm : r.Method = http.MethodPost
    · rw [handleCEP_of_post env r hm] at hu
      refine ⟨hm, handleCEPSpan_call env r u ?_⟩
      simpa using hu
    · simp [handleCEP, hm] at hu

theorem handleCEP_invalid_is_422_without_call_witness :
    (handleCEP (gatewayStub (some ⟨"abc"⟩) none none)
        ⟨"POST", "/cep", "\x7b\"cep\":\"abc\"\x7d"⟩).w = http.Error "invalid zipcode" 422 ∧
    (handleCEP (gatewayStub (some ⟨"abc"⟩) none none)
        ⟨"POST", "/cep", "\x7b\"cep\":\"abc\"\x7d"⟩).log =
      [Event.spanStart "handle-cep-request", Event.spanEnd "handle-cep-request"] :=
  (handleCEP_invalid_is_422_without_call (gatewayStub (some ⟨"abc"⟩) none none)
    ⟨"POST", "/cep", "\x7b\"cep\":\"abc\"\x7d"⟩).1 ⟨"abc"⟩ rfl rfl (by decide)

/-- C3. When the trimmed postal code of a POST request passes `isValidCEP`, the
postal code the Gateway forwards is the trimmed string with every `-` removed
and its other characters kept in order; it is exactly 8 decimal digits, passes
`isValidCEP` itself, and is unchanged by removing the separator again; it is
the last segment of the URL the Gateway requests. -/
theorem forwardedCEP_is_normal {V : Type} (env : GatewayEnv V) (r : Request)
    (req : ZipCodeRequest) (hm : r.Method = http.MethodPost)
    (hd : env.decodeZipCodeRequest r.Body = some req)
    (hv : isValidCEP (TrimSpace req.CEP) = true) :
    (forwardedCEP req).data = (TrimSpace req.CEP).data.filter (fun c => c != '-') ∧
    (forwardedCEP req).length = 8 ∧
    (∀ c ∈ (forwardedCEP req).data, '0' ≤ c ∧ c ≤ '9') ∧
    isValidCEP (forwardedCEP req) = true ∧
    ReplaceAll (forwardedCEP req) "-" "" = forwardedCEP req ∧
    (handleCEP env r).log =
      if env.NewRequestOK (env.SERVICE_B_URL ++ "/weather/" ++ forwardedCEP req) then
        [Event.spanStart "handle-cep-request",
          Event.httpCall (env.SERVICE_B_URL ++ "/weather/" ++ forwardedCEP req),
          Event.spanEnd "handle-cep-request"]
      else [Event.spanStart "handle-cep-request", Event.spanEnd "handle-cep-request"] := by
  have hshape := filter_dash_of_shape (TrimSpace req.CEP).data
    (by rw [← isValidCEP_eq_cepShapeChars]; exact hv)
  have hdata : (forwardedCEP req).data =
      (TrimSpace req.CEP).data.filter (fun c => c != '-') := ReplaceAll_dash_data _
  refine ⟨hdata, ?_, ?_, ?_, ?_, ?_⟩
  · rw [String.length, hdata]; exact hshape.2.1
  · intro c hc
    rw [hdata] at hc
    exact (isDigit_iff c).1 (List.all_eq_true.1 hshape.2.2 c hc)
  · rw [isValidCEP_eq_cepShapeChars, hdata]; exact hshape.1
  · apply String.ext
    rw [ReplaceAll_dash_data, hdata, List.filter_filter]
    simp
  · rw [handleCEP_of_post env r hm]
    simp only [handleCEPSpan, hd, hv, resolverURL]
    cases hn : env.NewRequestOK (env.SERVICE_B_URL ++ "/weather/" ++ forwardedCEP req) with
    | false => simp
    | true =>
      cases hc : env.clientDo (env.SERVICE_B_URL ++ "/weather/" ++ forwardedCEP req) with
      | none => simp
      | some resp => by_cases hs : resp.StatusCode = 200 <;> simp [hs]

theorem forwardedCEP_is_normal_witness :
    isValidCEP (TrimSpace " 01310-100\n") = true ∧
    (forwardedCEP ⟨" 01310-100\n"⟩).data =
      (TrimSpace " 01310-100\n").data.filter (fun c => c != '-') ∧
    forwardedCEP ⟨" 01310-100\n"⟩ = "01310100" ∧
    (forwardedCEP ⟨" 01310-100\n"⟩).length = 8 ∧
    isValidCEP (forwardedCEP ⟨" 01310-100\n"⟩) = true ∧
    ReplaceAll (forwardedCEP ⟨" 01310-100\n"⟩) "-" "" = forwardedCEP ⟨" 01310-100\n"⟩ :=
  have h := forwardedCEP_is_normal (gatewayStub (some ⟨" 01310-100\n"⟩) none none)
    ⟨"POST", "/cep", "\x7b\"cep\":\" 01310-100\\n\"\x7d"⟩ ⟨" 01310-100\n"⟩ rfl rfl (by decide)
  ⟨by decide, h.1, by decide, h.2.1, h.2.2.2.1, h.2.2.2.2.1⟩

/-! ## service-a: relaying the Resolver's errors -/

theorem handleCEP_relay {V : Type} (env : GatewayEnv V) (r : Request) (req : ZipCodeRequest)
    (resp : Response) (hm : r.Method = http.MethodPost)
    (hd : env.decodeZipCodeRequest r.Body = some req)
    (hv : isValidCEP (TrimSpace req.CEP) = true)
    (hn : env.NewRequestOK (resolverURL env req) = true)
    (hc : env.clientDo (resolverURL env req) = some resp)
    (hs : resp.StatusCode ≠ http.StatusOK) :
    (handleCEP env r).w = relayError env resp := by
  rw [handleCEP_of_post env r hm]
  simp [handleCEPSpan, hd, hv, hn, hc, hs]

theorem relayError_status {V : Type} (env : GatewayEnv V) (resp : Response) (body : String)
    (hb : resp.Body = some body) : (relayError env resp).status = resp.StatusCode := by
  cases hu : env.unmarshalStringMap body with
  | none => simp [relayError, hb, hu, http.Error]
  | some m =>
    by_cases h : mapIndex m "message" = "" <;> simp [relayError, hb, hu, h, http.Error]

/-- C7, as amended. For a Resolver response with a status other than 200 whose
body `b` is read without error, `handleCEP` answers with that status unchanged,
and the text it hands to `http.Error` is the value of the `message` field when
`b` unmarshals into a map of strings with a non-empty `message` field, and the
raw text `b` when `b` does not unmarshal, or has no `message` field, or has an
empty one. -/
theorem handleCEP_relays_status_and_message {V : Type} (env : GatewayEnv V) (r : Request)
    (req : ZipCodeRequest) (resp : Response) (b : String)
    (hm : r.Method = http.MethodPost)
    (hd : env.decodeZipCodeRequest r.Body = some req)
    (hv : isValidCEP (TrimSpace req.CEP) = true)
    (hn : env.NewRequestOK (resolverURL env req) = true)
    (hc : env.clientDo (resolverURL env req) = some resp)
    (hs : resp.StatusCode ≠ 200)
    (hb : resp.Body = some b) :
    (handleCEP env r).w.status = resp.StatusCode ∧
    (∀ m v, env.unmarshalStringMap b = some m → m.lookup "message" = some v → v ≠ "" →
      (handleCEP env r).w = http.Error v resp.StatusCode) ∧
    (env.unmarshalStringMap b = none → (handleCEP env r).w = http.Error b resp.StatusCode) ∧
    (∀ m, env.unmarshalStringMap b = some m → m.lookup "message" = none →
      (handleCEP env r).w = http.Error b resp.StatusCode) ∧
    (∀ m, env.unmarshalStringMap b = some m → m.lookup "message" = some "" →
      (handleCEP env r).w = http.Error b resp.StatusCode) := by
  rw [handleCEP_relay env r req resp hm hd hv hn hc hs]
  refine ⟨relayError_status env resp b hb, ?_, ?_, ?_, ?_⟩
  · intro m v hu hl hne
    simp [relayError, hb, hu, mapIndex, hl, hne]
  · intro hu
    simp [relayError, hb, hu]
  · intro m hu hl
    simp [relayError, hb, hu, mapIndex, hl]
  · intro m hu hl
    simp [relayError, hb, hu, mapIndex, hl]

theorem handleCEP_relays_status_and_message_witness :
    (handleCEP
        (gatewayStub (some ⟨"01310-100"⟩)
          (some ⟨503, some "\x7b\"message\":\"down\"\x7d"⟩) (some [("message", "down")]))
        ⟨"POST", "/cep", "\x7b\"cep\":\"01310-100\"\x7d"⟩).w = http.Error "down" 503 :=
  (handleCEP_relays_status_and_message
    (gatewayStub (some ⟨"01310-100"⟩)
      (some ⟨503, some "\x7b\"message\":\"down\"\x7d"⟩) (some [("message", "down")]))
    ⟨"POST", "/cep", "\x7b\"cep\":\"01310-100\"\x7d"⟩ ⟨"01310-100"⟩
    ⟨503, some "\x7b\"message\":\"down\"\x7d"⟩ "\x7b\"message\":\"down\"\x7d"
    rfl rfl (by decide) rfl rfl (by decide) rfl).2.1
    [("message", "down")] "down" rfl (by decide) (by decide)

/-- C7, as stated, fails: the Resolver answers 404 with the body
`{"message":""}`, which unmarshals into a map holding a `message` field whose
value is the empty string; the claim gives the empty text as the reply, and
`handleCEP` replies with the raw body. -/
theorem handleCEP_empty_message_is_raw_body :
    (gatewayStub (some ⟨"01310-100"⟩) (some ⟨404, some "\x7b\"message\":\"\"\x7d"⟩)
        (some [("message", "")])).unmarshalStringMap "\x7b\"message\":\"\"\x7d"
      = some [("message", "")] ∧
    List.lookup "message" [("message", "")] = some "" ∧
    (handleCEP
        (gatewayStub (some ⟨"01310-100"⟩) (some ⟨404, some "\x7b\"message\":\"\"\x7d"⟩)
          (some [("message", "")]))
        ⟨"POST", "/cep", "\x7b\"cep\":\"01310-100\"\x7d"⟩).w
      = http.Error "\x7b\"message\":\"\"\x7d" 404 ∧
    (handleCEP
        (gatewayStub (some ⟨"01310-100"⟩) (some ⟨404, some "\x7b\"message\":\"\"\x7d"⟩)
          (some [("message", "")]))
        ⟨"POST", "/cep", "\x7b\"cep\":\"01310-100\"\x7d"⟩).w
      ≠ http.Error "" 404 ∧
    (handleCEP
        (gatewayStub (some ⟨"01310-100"⟩) (some ⟨404, some "\x7b\"message\":\"\"\x7d"⟩)
          (some [("message", "")]))
        ⟨"POST", "/cep", "\x7b\"cep\":\"01310-100\"\x7d"⟩).w.body ≠ "" := by
  decide

/-! ## service-b: the error branches -/

theorem handleWeather_of_get (env : ResolverEnv) (r : Request) (hm : r.Method = http.MethodGet) :
    handleWeather env r = ⟨(handleWeatherSpan env r).w,
      [Event.spanStart "handle-weather-request"] ++ (handleWeatherSpan env r).log ++
        [Event.spanEnd "handle-weather-request"], (handleWeatherSpan env r).result⟩ := by
  simp [handleWeather, hm]

theorem getLocation_log (env : ResolverEnv) (cep : String) :
    (getLocation env cep).2 = [Event.httpCall (locationURL cep)] := rfl

theorem getWeather_log (env : ResolverEnv) (city : String) :
    (getWeather env city).2 = [Event.httpCall (weatherURL env city)] := rfl

theorem getLocation_error_text (env : ResolverEnv) (cep err : String)
    (h : (getLocation env cep).1 = Except.error err) : err = "can not find zipcode" := by
  unfold getLocation at h
  cases hg : env.httpGet (locationURL cep) with
  | none => simp [hg] at h; exact h.symm
  | some resp =>
    cases hdec : resp.Body.bind env.decodeCEPResponse with
    | none => simp [hg, hdec] at h; exact h.symm
    | some loc =>
      cases he : loc.Error with
      | true => simp [hg, hdec, he] at h; exact h.symm
      | false => simp [hg, hdec, he] at h

theorem handleWeatherSpan_location_error (env : ResolverEnv) (r : Request) (a b cep : String)
    (hp : Split r.Path '/' = [a, b, cep])
    (h : (getLocation env cep).1 = Except.error "can not find zipcode") :
    (handleWeatherSpan env r).w = http.Error "can not find zipcode" 404 ∧
    (handleWeatherSpan env r).log = [Event.spanStart "get-location",
      Event.httpCall (locationURL cep), Event.spanEnd "get-location"] ∧
    (handleWeatherSpan env r).result = none := by
  simp [handleWeatherSpan, hp, h, getLocation_log]

/-- C5. For a GET request with a well-formed path, when the geocode lookup
fails (the transport call fails, the reply does not decode, or its `erro` flag
is set), the Resolver answers 404 "can not find zipcode" and its only outbound
call is the geocode request, so the weather service is not called; and a
Gateway that receives that reply for a valid postal code answers its caller
with status 404. -/
theorem geocode_failure_is_404_and_relayed (env : ResolverEnv) (r : Request)
    (a b cep : String) {V : Type} (genv : GatewayEnv V) (g : Request) (req : ZipCodeRequest)
    (hm : r.Method = http.MethodGet)
    (hp : Split r.Path '/' = [a, b, cep])
    (hfail : env.httpGet (locationURL cep) = none ∨
      (∃ resp, env.httpGet (locationURL cep) = some resp ∧
        resp.Body.bind env.decodeCEPResponse = none) ∨
      (∃ resp loc, env.httpGet (locationURL cep) = some resp ∧
        resp.Body.bind env.decodeCEPResponse = some loc ∧ loc.Error = true))
    (hgm : g.Method = http.MethodPost)
    (hgd : genv.decodeZipCodeRequest g.Body = some req)
    (hgv : isValidCEP (TrimSpace req.CEP) = true)
    (hgn : genv.NewRequestOK (resolverURL genv req) = true)
    (hgc : genv.clientDo (resolverURL genv req) =
      some ⟨(handleWeather env r).w.status, some (handleWeather env r).w.body⟩) :
    (handleWeather env r).w = http.Error "can not find zipcode" 404 ∧
    (handleWeather env r).log = [Event.spanStart "handle-weather-request",
      Event.spanStart "get-location", Event.httpCall (locationURL cep),
      Event.spanEnd "get-location", Event.spanEnd "handle-weather-request"] ∧
    (handleCEP genv g).w.status = 404 := by
  have hloc : (getLocation env cep).1 = Except.error "can not find zipcode" := by
    unfold getLocation
    rcases hfail with h | ⟨resp, h, hdec⟩ | ⟨resp, loc, h, hdec, he⟩
    · simp [h]
    · simp [h, hdec]
    · simp [h, hdec, he]
  have hspan := handleWeatherSpan_location_error env r a b cep hp hloc
  have hw : (handleWeather env r).w = http.Error "can not find zipcode" 404 := by
    rw [handleWeather_of_get env r hm]; exact hspan.1
  refine ⟨hw, ?_, ?_⟩
  · rw [handleWeather_of_get env r hm]
    simp [hspan.2.1]
  · rw [hw] at hgc
    rw [handleCEP_relay genv g req _ hgm hgd hgv hgn hgc (by simp [http.Error])]
    exact relayError_status genv _ _ rfl

theorem geocode_failure_is_404_and_relayed_witness :
    (handleWeather resolverStubNotFound ⟨"GET", "/weather/99999999", ""⟩).w =
      http.Error "can not find zipcode" 404 ∧
    (handleWeather resolverStubNotFound ⟨"GET", "/weather/99999999", ""⟩).log =
      [Event.spanStart "handle-weather-request", Event.spanStart "get-location",
        Event.httpCall (locationURL "99999999"), Event.spanEnd "get-location",
        Event.spanEnd "handle-weather-request"] ∧
    (handleCEP (gatewayStub (some ⟨"99999-999"⟩) (some ⟨404, some "can not find zipcode\n"⟩) none)
      ⟨"POST", "/cep", "\x7b\"cep\":\"99999-999\"\x7d"⟩).w.status = 404 :=
  geocode_failure_is_404_and_relayed resolverStubNotFound ⟨"GET", "/weather/99999999", ""⟩
    "" "weather" "99999999"
    (gatewayStub (some ⟨"99999-999"⟩) (some ⟨404, some "can not find zipcode\n"⟩) none)
    ⟨"POST", "/cep", "\x7b\"cep\":\"99999-999\"\x7d"⟩ ⟨"99999-999"⟩
    rfl (by decide) (Or.inr (Or.inr ⟨⟨200, some ""⟩, ⟨"", "", "", true⟩, rfl, rfl, rfl⟩))
    rfl rfl (by decide) rfl (by decide)

/-- C6. For a GET request with a well-formed path whose geocode lookup
succeeds, any failure of the weather call (the transport call fails, reading
the body fails, or the body does not unmarshal) makes the Resolver answer 500
"error getting weather data", not 404, and no `WeatherResult` is encoded. -/
theorem weather_failure_is_500 (env : ResolverEnv) (r : Request) (a b cep : String)
    (resp : Response) (loc : CEPResponse)
    (hm : r.Method = http.MethodGet)
    (hp : Split r.Path '/' = [a, b, cep])
    (hg : env.httpGet (locationURL cep) = some resp)
    (hdec : resp.Body.bind env.decodeCEPResponse = some loc)
    (he : loc.Error = false)
    (hfail : env.httpGet (weatherURL env loc.Localidade) = none ∨
      (∃ wresp, env.httpGet (weatherURL env loc.Localidade) = some wresp ∧ wresp.Body = none) ∨
      (∃ wresp body, env.httpGet (weatherURL env loc.Localidade) = some wresp ∧
        wresp.Body = some body ∧ env.unmarshalWeatherResponse body = none)) :
    (handleWeather env r).w = http.Error "error getting weather data" 500 ∧
    (handleWeather env r).w.status ≠ 404 ∧
    (handleWeather env r).result = none := by
  have hloc : (getLocation env cep).1 = Except.ok loc := by
    simp [getLocation, hg, hdec, he]
  have hwe : (getWeather env loc.Localidade).1 = none := by
    unfold getWeather
    rcases hfail with h | ⟨wresp, h, hb⟩ | ⟨wresp, body, h, hb, hu⟩
    · simp [h]
    · simp [h, hb]
    · simp [h, hb, hu]
  have hw : (handleWeather env r).w = http.Error "error getting weather data" 500 := by
    rw [handleWeather_of_get env r hm]
    simp [handleWeatherSpan, hp, hloc, hwe]
  refine ⟨hw, ?_, ?_⟩
  · rw [hw]; simp [http.Error]
  · rw [handleWeather_of_get env r hm]
    simp [handleWeatherSpan, hp, hloc, hwe]

theorem weather_failure_is_500_witness :
    (handleWeather resolverStubNoWeather ⟨"GET", "/weather/01310100", ""⟩).w =
      http.Error "error getting weather data" 500 ∧
    (handleWeather resolverStubNoWeather ⟨"GET", "/weather/01310100", ""⟩).w.status ≠ 404 ∧
    (handleWeather resolverStubNoWeather ⟨"GET", "/weather/01310100", ""⟩).result = none :=
  weather_failure_is_500 resolverStubNoWeather ⟨"GET", "/weather/01310100", ""⟩
    "" "weather" "01310100" ⟨200, some ""⟩ ⟨"01310-100", "São Paulo", "SP", false⟩
    rfl (by decide) (by decide) rfl rfl (Or.inl (by decide))

/-! ## service-b: the request path -/

theorem splitChars_of_not_mem (sep : Char) (cs : List Char) :
    ∀ cur : List Char, sep ∉ cs → splitChars sep cs cur = [cur.reverse ++ cs] := by
  induction cs with
  | nil => intro cur _; simp [splitChars]
  | cons c cs ih =>
    intro cur h
    have hc : c ≠ sep := fun e => h (by simp [e])
    have hcs : sep ∉ cs := fun e => h (by simp [e])
    simp [splitChars, hc, ih (c :: cur) hcs]

theorem splitChars_length_pos (sep : Char) (cs : List Char) :
    ∀ cur : List Char, 1 ≤ (splitChars sep cs cur).length := by
  induction cs with
  | nil => intro cur; simp [splitChars]
  | cons c cs ih =>
    intro cur
    by_cases hc : c = sep
    · simp [splitChars, hc]
    · simp only [splitChars, hc, if_false]; exact ih (c :: cur)

theorem splitChars_length_of_mem (sep : Char) (cs : List Char) :
    ∀ cur : List Char, sep ∈ cs → 2 ≤ (splitChars sep cs cur).length := by
  induction cs with
  | nil => intro cur h; simp at h
  | cons c cs ih =>
    intro cur h
    by_cases hc : c = sep
    · subst hc
      simp only [splitChars, if_true, List.length_cons]
      have := splitChars_length_pos c cs []
      omega
    · have hcs : sep ∈ cs := by
        rcases List.mem_cons.1 h with e | e
        · exact absurd e.symm hc
        · exact e
      simp only [splitChars, hc, if_false]
      exact ih (c :: cur) hcs

theorem Split_weather_prefix (rest : String) :
    Split ("/weather/" ++ rest) '/' = "" :: "weather" :: Split rest '/' := by
  have h : ("/weather/" ++ rest).data =
      '/' :: 'w' :: 'e' :: 'a' :: 't' :: 'h' :: 'e' :: 'r' :: '/' :: rest.data := by
    rw [String.data_append]; rfl
  simp only [Split, h, splitChars]
  simp

theorem handleWeatherSpan_parts (env : ResolverEnv) (r : Request) (a b cep : String)
    (hp : Split r.Path '/' = [a, b, cep]) :
    (handleWeatherSpan env r).w.status ≠ 400 ∧
    Event.httpCall (locationURL cep) ∈ (handleWeatherSpan env r).log := by
  cases hloc : (getLocation env cep).1 with
  | error err => simp [handleWeatherSpan, hp, hloc, getLocation_log, http.Error]
  | ok loc =>
    cases hwe : (getWeather env loc.Localidade).1 with
    | none => simp [handleWeatherSpan, hp, hloc, hwe, getLocation_log, http.Error]
    | some weather => simp [handleWeatherSpan, hp, hloc, hwe, getLocation_log]

/-- C8, as amended. For a GET request whose path is `/weather/` followed by a
remainder, `handleWeather` answers 400 "invalid request path", without any
outbound call, when the remainder contains a `/` (so `/weather/a/b` is
rejected); when the remainder contains no `/`, be it empty or not, the answer
is not 400 and the remainder is the postal code of the geocode request. -/
theorem handleWeather_path_segments (env : ResolverEnv) (r : Request) (rest : String)
    (hm : r.Method = http.MethodGet) (hpath : r.Path = "/weather/" ++ rest) :
    ('/' ∈ rest.data →
      (handleWeather env r).w = http.Error "invalid request path" 400 ∧
      (handleWeather env r).log =
        [Event.spanStart "handle-weather-request", Event.spanEnd "handle-weather-request"]) ∧
    ('/' ∉ rest.data →
      (handleWeather env r).w.status ≠ 400 ∧
      Event.httpCall (locationURL rest) ∈ (handleWeather env r).log) := by
  rw [handleWeather_of_get env r hm]
  constructor
  · intro h
    have hlen : (Split r.Path '/').length ≠ 3 := by
      rw [hpath, Split_weather_prefix]
      have := splitChars_length_of_mem '/' rest.data [] h
      simp [Split]
      omega
    simp [handleWeatherSpan, hlen]
  · intro h
    have hp : Split r.Path '/' = ["", "weather", rest] := by
      rw [hpath, Split_weather_prefix]
      simp [Split, splitChars_of_not_mem '/' rest.data [] h]
    have := handleWeatherSpan_parts env r "" "weather" rest hp
    exact ⟨this.1, by simp [this.2]⟩

theorem handleWeather_path_segments_witness :
    (handleWeather resolverStubNotFound ⟨"GET", "/weather/a/b", ""⟩).w =
      http.Error "invalid request path" 400 ∧
    (handleWeather resolverStubNotFound ⟨"GET", "/weather/a/b", ""⟩).log =
      [Event.spanStart "handle-weather-request", Event.spanEnd "handle-weather-request"] :=
  (handleWeather_path_segments resolverStubNotFound ⟨"GET", "/weather/a/b", ""⟩ "a/b"
    rfl (by decide)).1 (by decide)

/-- C8, as stated, fails: the path `/weather/` begins with the route prefix and
nothing follows the prefix, yet `handleWeather` does not answer 400; it sends
the geocode request for the empty postal code and answers from its result. -/
theorem handleWeather_empty_segment_accepted :
    (handleWeather resolverStubNotFound ⟨"GET", "/weather/", ""⟩).w ≠
      http.Error "invalid request path" 400 ∧
    (handleWeather resolverStubNotFound ⟨"GET", "/weather/", ""⟩).w =
      http.Error "can not find zipcode" 404 ∧
    (handleWeather resolverStubNotFound ⟨"GET", "/weather/", ""⟩).log =
      [Event.spanStart "handle-weather-request", Event.spanStart "get-location",
        Event.httpCall "https://viacep.com.br/ws//json/", Event.spanEnd "get-location",
        Event.spanEnd "handle-weather-request"] := by
  decide

/-! ## service-b: when a result is written -/

theorem handleWeatherSpan_of_parts (env : ResolverEnv) (r : Request)
    (hlen : (Split r.Path '/').length = 3) :
    handleWeatherSpan env r =
      match (getLocation env ((Split r.Path '/').getD 2 "")).1 with
      | Except.error err =>
        ⟨http.Error err 404, [Event.spanStart "get-location",
          Event.httpCall (locationURL ((Split r.Path '/').getD 2 "")),
          Event.spanEnd "get-location"], none⟩
      | Except.ok loc =>
        match (getWeather env loc.Localidade).1 with
        | none =>
          ⟨http.Error "error getting weather data" 500, [Event.spanStart "get-location",
            Event.httpCall (locationURL ((Split r.Path '/').getD 2 "")),
            Event.spanEnd "get-location", Event.spanStart "get-weather",
            Event.httpCall (weatherURL env loc.Localidade), Event.spanEnd "get-weather"], none⟩
        | some weather =>
          ⟨⟨200, "application/json",
              (env.encodeWeatherResult (buildResult loc weather)).getD ""⟩,
            [Event.spanStart "get-location",
              Event.httpCall (locationURL ((Split r.Path '/').getD 2 "")),
              Event.spanEnd "get-location", Event.spanStart "get-weather",
              Event.httpCall (weatherURL env loc.Localidade), Event.spanEnd "get-weather"],
            some (buildResult loc weather)⟩ := by
  rw [handleWeatherSpan]
  simp only [hlen, bne_self_eq_false, Bool.false_eq_true, if_false, getLocation_log,
    getWeather_log, List.cons_append, List.nil_append, List.append_assoc]

theorem handleWeatherSpan_of_not_parts (env : ResolverEnv) (r : Request)
    (hlen : (Split r.Path '/').length ≠ 3) :
    handleWeatherSpan env r = ⟨http.Error "invalid request path" 400, [], none⟩ := by
  simp [handleWeatherSpan, hlen]

theorem getLocation_ok_flag (env : ResolverEnv) (cep : String) (loc : CEPResponse)
    (h : (getLocation env cep).1 = Except.ok loc) : loc.Error = false := by
  unfold getLocation at h
  cases hg : env.httpGet (locationURL cep) with
  | none => simp [hg] at h
  | some resp =>
    cases hdec : resp.Body.bind env.decodeCEPResponse with
    | none => simp [hg, hdec] at h
    | some l =>
      cases he : l.Error with
      | true => simp [hg, hdec, he] at h
      | false =>
        simp [hg, hdec, he] at h
        rw [← h]; exact he

/-- C9. `handleWeather` hands a `WeatherResult` to the encoder, under status
200, only for a GET request with a three-part path for which `getLocation`
returned a locality without error and `getWeather` returned a reading; the
result is then the one built from that locality and that reading, and its city
is the locality's name. On every other path (another method, another path
shape, a geocode error, a weather error) no `WeatherResult` is encoded and the
status is not 200. -/
theorem handleWeather_result_iff (env : ResolverEnv) (r : Request) (res : WeatherResult) :
    ((handleWeather env r).result = some res →
      (handleWeather env r).w.status = 200 ∧
      r.Method = http.MethodGet ∧ (Split r.Path '/').length = 3 ∧
      ∃ loc weather,
        (getLocation env ((Split r.Path '/').getD 2 "")).1 = Except.ok loc ∧
        loc.Error = false ∧
        (getWeather env loc.Localidade).1 = some weather ∧
        res = buildResult loc weather ∧ res.City = loc.Localidade) ∧
    ((r.Method ≠ http.MethodGet ∨ (Split r.Path '/').length ≠ 3 ∨
        (∃ err, (getLocation env ((Split r.Path '/').getD 2 "")).1 = Except.error err) ∨
        (∃ loc, (getLocation env ((Split r.Path '/').getD 2 "")).1 = Except.ok loc ∧
          (getWeather env loc.Localidade).1 = none)) →
      (handleWeather env r).result = none ∧ (handleWeather env r).w.status ≠ 200) := by
  by_cases hm : r.Method = http.MethodGet
  · rw [handleWeather_of_get env r hm]
    by_cases hlen : (Split r.Path '/').length = 3
    · rw [handleWeatherSpan_of_parts env r hlen]
      generalize (Split r.Path '/').getD 2 "" = cep
      cases hloc : (getLocation env cep).1 with
      | error err => simp [hm, http.Error]
      | ok loc =>
        have hflag := getLocation_ok_flag env _ loc hloc
        cases hwe : (getWeather env loc.Localidade).1 with
        | none => simp [hm, hwe, http.Error]
        | some weather =>
          simp only [hwe]
          constructor
          · intro h
            have h2 : buildResult loc weather = res := by simpa using h
            exact ⟨trivial, hm, hlen, loc, weather, rfl, hflag, hwe, h2.symm, by rw [← h2]; rfl⟩
          · intro h
            simp [hm, hlen, hwe] at h
    · rw [handleWeatherSpan_of_not_parts env r hlen]
      simp [hm, hlen, http.Error]
  · simp [handleWeather, hm, http.Error]

theorem handleWeather_result_iff_witness :
    (handleWeather resolverStubSunny ⟨"GET", "/weather/01310100", ""⟩).w.status = 200 ∧
    (handleWeather resolverStubNoWeather ⟨"GET", "/weather/01310100", ""⟩).result = none ∧
    (handleWeather resolverStubNoWeather ⟨"GET", "/weather/01310100", ""⟩).w.status ≠ 200 :=
  ⟨((handleWeather_result_iff resolverStubSunny ⟨"GET", "/weather/01310100", ""⟩
      (buildResult ⟨"01310-100", "São Paulo", "SP", false⟩ ⟨25.0⟩)).1 rfl).1,
    (handleWeather_result_iff resolverStubNoWeather ⟨"GET", "/weather/01310100", ""⟩
      (buildResult ⟨"01310-100", "São Paulo", "SP", false⟩ ⟨25.0⟩)).2
      (Or.inr (Or.inr (Or.inr ⟨⟨"01310-100", "São Paulo", "SP", false⟩, rfl, rfl⟩)))⟩

/-! ## Spans -/

theorem spansClosedOnce_wrap (name : String) (log : List Event) (h : SpansClosedOnce log)
    (hs : log.count (Event.spanStart name) = 0) :
    SpansClosedOnce ([Event.spanStart name] ++ log ++ [Event.spanEnd name]) := by
  obtain ⟨htot, hname⟩ := h
  constructor
  · simp [List.countP_cons, List.countP_append, Event.isSpanStart, Event.isSpanEnd, htot]
  · intro n
    have hn := hname n
    by_cases e : n = name
    · subst e
      simp [List.count_cons, List.count_append] at hn ⊢
      omega
    · have e1 : ¬ name = n := fun h => e h.symm
      simp [List.count_cons, List.count_append, e1] at hn ⊢
      omega

theorem handleCEPSpan_log {V : Type} (env : GatewayEnv V) (r : Request) :
    (handleCEPSpan env r).log = [] ∨ ∃ u, (handleCEPSpan env r).log = [Event.httpCall u] := by
  unfold handleCEPSpan
  cases hd : env.decodeZipCodeRequest r.Body with
  | none => simp
  | some req =>
    cases hv : isValidCEP (TrimSpace req.CEP) with
    | false => simp [hv]
    | true =>
      cases hn : env.NewRequestOK (resolverURL env req) with
      | false => simp [hv, hn]
      | true =>
        cases hc : env.clientDo (resolverURL env req) with
        | none => simp [hv, hn, hc]
        | some resp => by_cases hs : resp.StatusCode = 200 <;> simp [hv, hn, hc, hs]

theorem handleCEP_spans {V : Type} (env : GatewayEnv V) (r : Request) :
    SpansClosedOnce (handleCEP env r).log := by
  by_cases hm : r.Method = http.MethodPost
  · rw [handleCEP_of_post env r hm]
    apply spansClosedOnce_wrap
    · rcases handleCEPSpan_log env r with h | ⟨u, h⟩ <;>
        simp [h, SpansClosedOnce, Event.isSpanStart, Event.isSpanEnd]
    · rcases handleCEPSpan_log env r with h | ⟨u, h⟩ <;> simp [h]
  · simp [handleCEP, hm, SpansClosedOnce]

theorem handleWeatherSpan_log (env : ResolverEnv) (r : Request) :
    (handleWeatherSpan env r).log = [] ∨
    (∃ u, (handleWeatherSpan env r).log = [Event.spanStart "get-location", Event.httpCall u,
      Event.spanEnd "get-location"]) ∨
    (∃ u v, (handleWeatherSpan env r).log = [Event.spanStart "get-location", Event.httpCall u,
      Event.spanEnd "get-location", Event.spanStart "get-weather", Event.httpCall v,
      Event.spanEnd "get-weather"]) := by
  by_cases hlen : (Split r.Path '/').length = 3
  · rw [handleWeatherSpan_of_parts env r hlen]
    cases (getLocation env ((Split r.Path '/').getD 2 "")).1 with
    | error err => simp
    | ok loc =>
      cases hwe : (getWeather env loc.Localidade).1 with
      | none => simp [hwe]
      | some weather => simp [hwe]
  · rw [handleWeatherSpan_of_not_parts env r hlen]; simp

theorem handleWeather_spans (env : ResolverEnv) (r : Request) :
    SpansClosedOnce (handleWeather env r).log := by
  by_cases hm : r.Method = http.MethodGet
  · rw [handleWeather_of_get env r hm]
    apply spansClosedOnce_wrap
    · rcases handleWeatherSpan_log env r with h | ⟨u, h⟩ | ⟨u, v, h⟩
      · simp [h, SpansClosedOnce]
      · rw [h]
        refine ⟨by simp [List.countP_cons, Event.isSpanStart, Event.isSpanEnd], fun n => ?_⟩
        by_cases e : "get-location" = n <;> simp [List.count_cons, e]
      · rw [h]
        refine ⟨by simp [List.countP_cons, Event.isSpanStart, Event.isSpanEnd], fun n => ?_⟩
        by_cases e : "get-location" = n
        · subst e; simp [List.count_cons]
        · by_cases e2 : "get-weather" = n <;> simp [List.count_cons, e, e2]
    · rcases handleWeatherSpan_log env r with h | ⟨u, h⟩ | ⟨u, v, h⟩ <;>
        simp [h, List.count_cons]
  · simp [handleWeather, hm, SpansClosedOnce]

/-- C10. On every execution path of `handleCEP` and of `handleWeather`, each
span that was started (`handle-cep-request`; `handle-weather-request`,
`get-location`, `get-weather`) is ended exactly once when the handler returns:
the log has as many span ends as span starts, and under each span name the
number of ends equals the number of starts and is at most one. -/
theorem handlers_close_every_span_once {V : Type} (genv : GatewayEnv V) (g : Request)
    (env : ResolverEnv) (r : Request) :
    SpansClosedOnce (handleCEP genv g).log ∧ SpansClosedOnce (handleWeather env r).log :=
  ⟨handleCEP_spans genv g, handleWeather_spans env r⟩

end GoexpertOtel
